import Mathlib

/-!
Shallow embedding of the chain/dispatch core of `deen/widgets/encoder.py`
(`EncoderWidget` / `DeenWidget`).  A widget is one chain stage; the
`EncoderWidget.widgets` list is the chain.  Qt view objects (text field,
hex field, labels) are modelled only through the state they carry that the
chain logic reads back: the text field's read-only flag (`readOnly`), the
red error border set by `set_error_next` (`errB`), and the
`codec_field` transformer caption (`label`, the producing operation).
Bytes are `List Nat` (a `bytearray`).  The Qt `setPlainText` re-entrant
`textChanged` signal on programmatic updates is view-level and not part of
the chain state transitions modelled here; the view text is identified
with `content`.
-/

namespace Deen

/-- A byte is "printable" when `chr(c)` lies in Python's `string.printable`
(ASCII 32..126 plus the whitespace controls 9..13). -/
def printableByte (c : Nat) : Bool :=
  (32 ≤ c && c ≤ 126) || (9 ≤ c && c ≤ 13)

/-- `all(chr(c) in string.printable for c in content)`. -/
def allPrintable (data : List Nat) : Bool :=
  data.all printableByte

/-- One `DeenWidget`: a chain stage.
`content` is `_content`; `readOnly` is `text_field.isReadOnly()`;
`errB` is the red border set by `set_error_next`; `label` is the
`codec_field` transformer caption (the producing operation);
`currentPick`/`currentComboHeader`/`comboIdx` model `current_pick` and
`current_combo` (the combo's header item text and current index);
`hexView` is `hex_view`. -/
structure Widget where
  content : List Nat
  readOnly : Bool
  errB : Bool
  label : Option String
  currentPick : Option String
  currentComboHeader : Option String
  comboIdx : Nat
  hexView : Bool
deriving Repr, DecidableEq

/-- A freshly created follower widget:
`DeenWidget(parent, readonly=True, enable_actions=False)`. -/
def freshWidget : Widget :=
  { content := [], readOnly := true, errB := false, label := none,
    currentPick := none, currentComboHeader := none, comboIdx := 0,
    hexView := false }

/-- The root widget created by `EncoderWidget.__init__`
(`DeenWidget(self)`, not read-only). -/
def initialRoot : Widget :=
  { content := [], readOnly := false, errB := false, label := none,
    currentPick := none, currentComboHeader := none, comboIdx := 0,
    hexView := false }

/-- `EncoderWidget.__init__`: the chain starts as a single root widget. -/
def initialChain : List Widget :=
  [initialRoot]

/-- A stage is editable when its text field is not read-only. -/
def editable (w : Widget) : Bool :=
  !w.readOnly

/-- The `DeenWidget.content` property setter.  Stores the bytearray; in
text view it additionally marks the text field read-only when the data
contains a non-printable byte ("prevent the field from overwriting itself
with invalid characters"); it never clears read-only. -/
def contentSetter (w : Widget) (data : List Nat) : Widget :=
  if w.hexView then
    { w with content := data }
  else
    { w with content := data, readOnly := w.readOnly || !allPrintable data }

/-- Replace the widget at position `j` by `f` of it (no-op past the end),
the pointwise field updates the Python methods perform on a widget that
sits at a known position of `parent.widgets`. -/
def modifyAt (ws : List Widget) (j : Nat) (f : Widget → Widget) : List Widget :=
  ws.set j (f (ws.getD j freshWidget))

/-- `DeenWidget.has_next` for the widget at position `i`:
`parent.widgets[-1] != self`, i.e. `i` is not the last position. -/
def hasNext (ws : List Widget) (i : Nat) : Bool :=
  i + 1 < ws.length

/-- `DeenWidget.has_previous` for the widget at position `i`:
`parent.widgets[0] != self`. -/
def hasPrevious (_ws : List Widget) (i : Nat) : Bool :=
  i ≠ 0

/-- A Python value as it appears in the ill-typed comparison inside
`DeenWidget.previous`: either a `bool` or a widget reference (identified
by its position). -/
inductive PyVal where
  | bool (b : Bool)
  | widget (i : Nat)
deriving DecidableEq

/-- Python `==` between such values: values of different types compare
unequal (`QWidget` defines no cross-type equality). -/
def pyEq : PyVal → PyVal → Bool
  | .bool a, .bool b => a == b
  | .widget a, .widget b => a == b
  | _, _ => false

/-- `DeenWidget.previous` for the widget at position `i`, kept faithful to
the source's guard `if not self.has_previous() == self:` which (by Python
precedence) compares the boolean `has_previous()` result against the
widget object `self` and negates.  Returns the position of the widget the
method returns. -/
def previousIdx (ws : List Widget) (i : Nat) : Nat :=
  if !(pyEq (.bool (hasPrevious ws i)) (.widget i)) then
    i
  else
    i - 1

/-- The materialising part of `DeenWidget.next` for position `i`: when
there is no next widget, append a fresh read-only one.  Afterwards the
next widget is the one at `i + 1`. -/
def ensureNext (ws : List Widget) (i : Nat) : List Widget :=
  if hasNext ws i then ws else ws ++ [freshWidget]

/-- The `while` loop of `DeenWidget.remove_next_widgets`, fuelled: pop
the last widget until the list length equals `idx`, stopping early at
length 1 (the loop's `len == 1` guard; an empty list never arises).
Each iteration shortens the list, so fuel equal to the initial length is
enough. -/
def removeLoopFuel : Nat → List Widget → Nat → List Widget
  | 0, ws, _ => ws
  | fuel + 1, ws, idx =>
    if ws.length = idx ∨ ws.length ≤ 1 then ws
    else removeLoopFuel fuel ws.dropLast idx

/-- The pop loop of `DeenWidget.remove_next_widgets` with its natural
fuel. -/
def removeLoop (ws : List Widget) (idx : Nat) : List Widget :=
  removeLoopFuel ws.length ws idx

/-- `DeenWidget.remove_next_widgets(widget, offset)` where `widget` sits
at position `i`: run the pop loop with target length `i + offset`. -/
def removeNextWidgets (ws : List Widget) (i offset : Nat) : List Widget :=
  removeLoop ws (i + offset)

/-- `DeenWidget.set_content_next` from the widget at position `i`:
materialise the next widget and write `data` through its content
property setter (the `setPlainText` / length-field updates are view
bookkeeping). -/
def setContentNext (ws : List Widget) (i : Nat) (data : List Nat) : List Widget :=
  modifyAt (ensureNext ws i) (i + 1) (fun w => contentSetter w data)

/-- `DeenWidget.set_error_next` from the widget at position `i`: the next
widget (created if absent) gets the red error border, then
`remove_next_widgets(widget=next_widget, offset=1)` pops down to length
`(i + 1) + 1`. -/
def setErrorNext (ws : List Widget) (i : Nat) : List Widget :=
  removeLoop (modifyAt (ensureNext ws i) (i + 1) (fun w => { w with errB := true })) (i + 2)

/-- Modelled from the spec: the operation registry (`deen.core`'s
`ENCODINGS`, `COMPRESSIONS`, `HASHS`, `MISC` catalogs and
`deen.transformers.core`'s `DeenTransformer` / `X509Certificate`) is not
under `src/`; per the spec it is an external catalog of named
byte-transformation functions grouped by category, with decode,
uncompress and structured decode as the fallible directions
(`bytes -> (bytes, error?)`) and hashing total.  `x509decode` raising is
the `crypto.Error` path; `cryptoAvailable` models whether the optional
`OpenSSL.crypto` dependency imported (`crypto` is not `None`). -/
structure Registry where
  encodings : List String
  compressions : List String
  hashs : List String
  misc : List String
  encode : String → List Nat → List Nat
  decode : String → List Nat → List Nat × Option String
  compress : String → List Nat → List Nat
  uncompress : String → List Nat → List Nat × Option String
  hash : String → List Nat → List Nat
  x509decode : List Nat → Except String (List Nat)
  cryptoAvailable : Bool

/-- A combo-box selection event handed to `action`: the header item text
of the combo (`model().item(0).text()`), its `currentIndex()` and its
`currentText()`. -/
structure ComboSel where
  header : String
  idx : Nat
  text : String
deriving Repr, DecidableEq

/-- The transformer dispatch in the middle of `DeenWidget.action`
(lines 419-452), for the widget at position `i`: returns the local
`error` flag (was an error recorded?) and the mutated widget list.
Faithfully, each fallible branch first calls `set_error_next` and then
still `set_content_next` with the transformer's returned bytes (the
original input in the `X509Certificate` except-branch); an unmatched
pick — including `X509Certificate` with `crypto` unavailable — mutates
nothing here. -/
def actionBranch (reg : Registry) (ws : List Widget) (i : Nat) : Bool × List Widget :=
  let w := ws.getD i freshWidget
  match w.currentPick with
  | none => (false, ws)
  | some pick =>
    if pick ∈ reg.encodings then
      if w.currentComboHeader = some "Encode" then
        (false, setContentNext ws i (reg.encode pick w.content))
      else
        match reg.decode pick w.content with
        | (decoded, some _) => (true, setContentNext (setErrorNext ws i) i decoded)
        | (decoded, none) => (false, setContentNext ws i decoded)
    else if pick ∈ reg.compressions then
      if w.currentComboHeader = some "Compress" then
        (false, setContentNext ws i (reg.compress pick w.content))
      else
        match reg.uncompress pick w.content with
        | (uncompressed, some _) => (true, setContentNext (setErrorNext ws i) i uncompressed)
        | (uncompressed, none) => (false, setContentNext ws i uncompressed)
    else if pick ∈ reg.hashs || pick == "ALL" then
      (false, setContentNext ws i (reg.hash pick w.content))
    else if pick ∈ reg.misc then
      if pick == "X509Certificate" && reg.cryptoAvailable then
        match reg.x509decode w.content with
        | .ok d => (false, setContentNext ws i d)
        | .error _ => (true, setContentNext (setErrorNext ws i) i w.content)
      else (false, ws)
    else (false, ws)

/-- Lines 453-454 of `DeenWidget.action`: with a current combo recorded,
reset it to its placeholder index 0 (the re-entrant `currentIndexChanged`
handler then returns immediately on the index-0 guard). -/
def resetCombo (ws : List Widget) (i : Nat) : List Widget :=
  if (ws.getD i freshWidget).currentComboHeader.isSome then
    modifyAt ws i (fun v => { v with comboIdx := 0 })
  else ws

/-- Lines 455-457 of `DeenWidget.action`: when the (already materialised)
next widget is read-only and a pick is recorded, caption its
`codec_field` with the transformer name. -/
def captionNext (ws : List Widget) (i : Nat) : List Widget :=
  if (ws.getD (i + 1) freshWidget).readOnly &&
      (ws.getD i freshWidget).currentPick.isSome then
    modifyAt ws (i + 1) (fun v =>
      { v with label :=
          (ws.getD i freshWidget).currentPick.map (fun p => "Transformer: " ++ p) })
  else ws

/-- The tail of `DeenWidget.action` (lines 453-459): reset the current
combo, materialise the next widget through the `self.next()` call in the
line-455 condition, caption it, and clear the next widget's error border
when no error was recorded. -/
def actionFinish (ws : List Widget) (i : Nat) (error : Bool) : List Widget :=
  let ws5 := captionNext (ensureNext (resetCombo ws i) i) i
  if !error then modifyAt ws5 (i + 1) (fun v => { v with errB := false }) else ws5

/-- `DeenWidget.action` after the combo bookkeeping: dispatch, then the
tail. -/
def actionCore (reg : Registry) (ws : List Widget) (i : Nat) : List Widget :=
  let r := actionBranch reg ws i
  actionFinish r.2 i r.1

/-- The widget-list update performed by lines 417-418 of `action` when a
combo selection `c` is dispatched: record `current_combo` (its header
text and index) and `current_pick` on the widget at position `i`. -/
def recordCombo (ws : List Widget) (i : Nat) (c : ComboSel) : List Widget :=
  modifyAt ws i (fun w =>
    { w with currentComboHeader := some c.header,
             currentPick := some c.text, comboIdx := c.idx })

/-- `DeenWidget.action(combo)` for the widget at position `i`.  The
initial `if not self._content:` text-field sync is the view identity
here.  With a combo argument: index 0 (the disabled category placeholder)
returns immediately with no mutation; otherwise `current_combo` and
`current_pick` are recorded before dispatch.  Without a combo (the
re-application path from `field_content_changed`) dispatch runs on the
stored pick. -/
def action (reg : Registry) (ws : List Widget) (i : Nat) (combo : Option ComboSel) : List Widget :=
  match combo with
  | some c =>
    if c.idx = 0 then ws
    else actionCore reg (recordCombo ws i c) i
  | none => actionCore reg ws i

/-- `DeenWidget.field_content_changed` for the widget at position `i`,
fired when its text changes to `newText` (for an editable field this is
the user's edit; `hasFocus` is `hex_field.hasFocus() or
text_field.hasFocus()`).  Editable-with-followers truncates via
`remove_next_widgets(offset=2)`; read-only-with-followers forwards its
content; an editable field then stores the new text; finally, with focus
and a stored pick, `action()` re-applies. -/
def fieldContentChanged (reg : Registry) (ws : List Widget) (i : Nat)
    (newText : List Nat) (hasFocus : Bool) : List Widget :=
  let w := ws.getD i freshWidget
  let ws1 :=
    if hasNext ws i && !w.readOnly then removeNextWidgets ws i 2
    else if hasNext ws i && w.readOnly then setContentNext ws i w.content
    else ws
  let ws2 :=
    if !w.readOnly then modifyAt ws1 i (fun v => { v with content := newText })
    else ws1
  if hasFocus && (ws2.getD i freshWidget).currentPick.isSome then
    action reg ws2 i none
  else ws2

/-- `DeenWidget.clear_content(widget)` where `widget` sits at position
`target`: when it is the root, its fields are cleared (content emptied,
text field made writable again, `current_pick` dropped); then
`remove_next_widgets(widget=widget)` runs with the default `offset=0`,
i.e. the pop loop with target length `target + 0`. -/
def clearContent (ws : List Widget) (target : Nat) : List Widget :=
  let ws1 :=
    if target = 0 then
      modifyAt ws 0 (fun w =>
        { w with content := [], readOnly := false, currentPick := none })
    else ws
  removeNextWidgets ws1 target 0

/-- `DeenWidget.move_content_to_root` invoked on the widget at position
`k`: remember its content, `clear_content` the root widget (which also
pops the list down to the root), then assign the remembered content
through the root's content property setter. -/
def moveContentToRoot (ws : List Widget) (k : Nat) : List Widget :=
  let data := (ws.getD k freshWidget).content
  modifyAt (clearContent ws 0) 0 (fun w => contentSetter w data)

/-- `EncoderWidget.set_root_content`: a falsy (empty) payload is ignored;
otherwise the data goes through the root widget's content property
setter. -/
def setRootContent (ws : List Widget) (data : List Nat) : List Widget :=
  if data = [] then ws
  else modifyAt ws 0 (fun w => contentSetter w data)

/-- A concrete registry instance used to exercise the chain logic: one
encoding, one compression, one hash and the certificate decoder, with
small stand-in byte transformations.  Decoding fails exactly on inputs
containing `!` (byte 33) and otherwise returns bytes reduced mod 8;
certificate parsing fails on every input (no input below is a valid
certificate). -/
def sampleReg : Registry :=
  { encodings := ["Base64"]
    compressions := ["Gzip"]
    hashs := ["SHA256"]
    misc := ["X509Certificate"]
    encode := fun _ data => data ++ [61]
    compress := fun _ data => 31 :: data
    decode := fun _ data =>
      if data.contains 33 then (data, some "invalid input")
      else (data.map (fun c => c % 8), none)
    uncompress := fun _ data =>
      if data = [] then (data, some "truncated stream") else (data.drop 1, none)
    hash := fun _ _ => [171, 205]
    x509decode := fun _ => .error "could not load certificate"
    cryptoAvailable := true }

/-- The same registry in a runtime where the optional `OpenSSL.crypto`
dependency failed to import (`crypto is None`). -/
def sampleRegNoCrypto : Registry :=
  { sampleReg with cryptoAvailable := false }

/-- A chain whose root holds the printable content `"hi"`. -/
def chainHi : List Widget :=
  setRootContent initialChain [104, 105]

/-- A three-stage chain built through the entry points: root `"hi"`,
stage 1 its encoding, stage 2 the hash of stage 1. -/
def sampleChain3 : List Widget :=
  action sampleReg (action sampleReg chainHi 0 (some ⟨"Encode", 1, "Base64"⟩)) 1
    (some ⟨"Hash", 1, "SHA256"⟩)

/-- The combo selection `c` dispatched on the widget at position `i`
reaches one of the three fallible transformer paths of
`DeenWidget.action` and the registry reports a failure there: decoding
with a non-`Encode` combo and a failing decode, uncompressing with a
non-`Compress` combo and a failing uncompress, or the
`X509Certificate` pick with the crypto dependency present and a raising
certificate parse.  The disequalities mirror the `elif` ladder. -/
def actionFailsAt (reg : Registry) (ws : List Widget) (i : Nat) (c : ComboSel) : Prop :=
  c.idx ≠ 0 ∧
  ((c.text ∈ reg.encodings ∧ c.header ≠ "Encode" ∧
      (reg.decode c.text (ws.getD i freshWidget).content).2.isSome = true) ∨
   (c.text ∉ reg.encodings ∧ c.text ∈ reg.compressions ∧ c.header ≠ "Compress" ∧
      (reg.uncompress c.text (ws.getD i freshWidget).content).2.isSome = true) ∨
   (c.text ∉ reg.encodings ∧ c.text ∉ reg.compressions ∧ c.text ∉ reg.hashs ∧
      c.text ≠ "ALL" ∧ c.text ∈ reg.misc ∧ c.text = "X509Certificate" ∧
      reg.cryptoAvailable = true ∧
      ∃ e, reg.x509decode (ws.getD i freshWidget).content = .error e))

/-- The byte payload that `action` writes into the next stage on the
three fallible paths: the first component of the registry's decode or
uncompress result, or — on the `X509Certificate` except-branch — the
input content itself (`set_content_next(self._content)`). -/
def failPayload (reg : Registry) (ws : List Widget) (i : Nat) (c : ComboSel) : List Nat :=
  if c.text ∈ reg.encodings then
    (reg.decode c.text (ws.getD i freshWidget).content).1
  else if c.text ∈ reg.compressions then
    (reg.uncompress c.text (ws.getD i freshWidget).content).1
  else
    (ws.getD i freshWidget).content


/-! Basic lemmas about the list-surgery primitives. -/

lemma length_modifyAt (ws : List Widget) (j : Nat) (f : Widget → Widget) :
    (modifyAt ws j f).length = ws.length := by
  simp [modifyAt]

lemma getD_modifyAt_self (ws : List Widget) (j : Nat) (f : Widget → Widget)
    (h : j < ws.length) :
    (modifyAt ws j f).getD j freshWidget = f (ws.getD j freshWidget) := by
  simp [modifyAt, List.getD_eq_getElem?_getD, List.getElem?_set_self h]

lemma getD_modifyAt_ne (ws : List Widget) (j k : Nat) (f : Widget → Widget)
    (h : j ≠ k) (d : Widget) :
    (modifyAt ws j f).getD k d = ws.getD k d := by
  simp [modifyAt, List.getD_eq_getElem?_getD, List.getElem?_set_ne h]

lemma length_ensureNext (ws : List Widget) (i : Nat) :
    (ensureNext ws i).length =
      if i + 1 < ws.length then ws.length else ws.length + 1 := by
  unfold ensureNext hasNext
  by_cases h : i + 1 < ws.length <;> simp [h]

lemma getD_ensureNext_lt (ws : List Widget) (i j : Nat) (d : Widget)
    (h : j < ws.length) :
    (ensureNext ws i).getD j d = ws.getD j d := by
  unfold ensureNext hasNext
  by_cases h1 : i + 1 < ws.length
  · simp [h1]
  · simp [h1, List.getD_eq_getElem?_getD, List.getElem?_append_left h]

lemma getD_ensureNext_next (ws : List Widget) (i : Nat) :
    (ensureNext ws i).getD (i + 1) freshWidget =
      if i + 1 < ws.length then ws.getD (i + 1) freshWidget else freshWidget := by
  unfold ensureNext hasNext
  by_cases h : i + 1 < ws.length
  · simp [h]
  · simp only [h, decide_eq_true_eq, if_neg h, decide_False, Bool.false_eq_true,
      if_false]
    rcases Nat.lt_or_ge ws.length (i + 1) with h2 | h2
    · rw [List.getD_eq_getElem?_getD, List.getElem?_eq_none (by simp; omega)]
      rfl
    · have h3 : i + 1 = ws.length := by omega
      rw [List.getD_eq_getElem?_getD, h3, List.getElem?_concat_length]
      rfl

lemma removeLoopFuel_eq (fuel : Nat) :
    ∀ (ws : List Widget) (idx : Nat), ws.length ≤ fuel →
      removeLoopFuel fuel ws idx =
        if idx ≤ ws.length then ws.take (max idx 1) else ws.take 1 := by
  induction fuel with
  | zero =>
    intro ws idx h
    have hnil : ws = [] := List.eq_nil_of_length_eq_zero (by omega)
    subst hnil
    simp [removeLoopFuel]
  | succ n ih =>
    intro ws idx h
    unfold removeLoopFuel
    split
    · rename_i hcond
      rcases hcond with h1 | h1
      · rw [if_pos (by omega)]
        rw [List.take_of_length_le (by omega)]
      · split
        · rw [List.take_of_length_le (by omega)]
        · rw [List.take_of_length_le (by omega)]
    · rename_i hcond
      push_neg at hcond
      obtain ⟨hne, hlen⟩ := hcond
      rw [ih ws.dropLast idx (by rw [List.length_dropLast]; omega)]
      rw [List.dropLast_eq_take, List.length_take]
      by_cases hx : idx ≤ min (ws.length - 1) ws.length
      · rw [if_pos hx, if_pos (by omega), List.take_take]
        congr 1
        omega
      · rw [if_neg hx, if_neg (by omega), List.take_take]
        congr 1
        omega

lemma removeLoop_eq (ws : List Widget) (idx : Nat) :
    removeLoop ws idx =
      if idx ≤ ws.length then ws.take (max idx 1) else ws.take 1 := by
  exact removeLoopFuel_eq ws.length ws idx (le_refl _)

lemma length_removeLoop (ws : List Widget) (idx : Nat) (h : idx ≤ ws.length) :
    (removeLoop ws idx).length = min (max idx 1) ws.length := by
  rw [removeLoop_eq, if_pos h, List.length_take]

lemma getD_removeLoop (ws : List Widget) (idx j : Nat) (d : Widget)
    (h1 : idx ≤ ws.length) (h2 : j < max idx 1) :
    (removeLoop ws idx).getD j d = ws.getD j d := by
  rw [removeLoop_eq, if_pos h1, List.getD_eq_getElem?_getD,
    List.getElem?_take, if_pos h2, ← List.getD_eq_getElem?_getD]

/-! Field behaviour of the content property setter. -/

lemma contentSetter_content (w : Widget) (d : List Nat) :
    (contentSetter w d).content = d := by
  unfold contentSetter
  split <;> rfl

lemma contentSetter_errB (w : Widget) (d : List Nat) :
    (contentSetter w d).errB = w.errB := by
  unfold contentSetter
  split <;> rfl

lemma contentSetter_label (w : Widget) (d : List Nat) :
    (contentSetter w d).label = w.label := by
  unfold contentSetter
  split <;> rfl

lemma contentSetter_readOnly_true (w : Widget) (d : List Nat)
    (h : w.readOnly = true) :
    (contentSetter w d).readOnly = true := by
  unfold contentSetter
  split
  · exact h
  · simp [h]

/-! Shape lemmas for `set_content_next` and `set_error_next`. -/

lemma length_afterEnsure (ws : List Widget) (i : Nat) (h : i < ws.length) :
    i + 2 ≤ (ensureNext ws i).length := by
  rw [length_ensureNext]
  split <;> omega

lemma length_setContentNext (ws : List Widget) (i : Nat) (data : List Nat) :
    (setContentNext ws i data).length =
      if i + 1 < ws.length then ws.length else ws.length + 1 := by
  unfold setContentNext
  rw [length_modifyAt, length_ensureNext]

lemma getD_setContentNext_next (ws : List Widget) (i : Nat) (data : List Nat)
    (h : i < ws.length) :
    (setContentNext ws i data).getD (i + 1) freshWidget =
      contentSetter ((ensureNext ws i).getD (i + 1) freshWidget) data := by
  unfold setContentNext
  exact getD_modifyAt_self _ _ _ (by have := length_afterEnsure ws i h; omega)

lemma getD_setContentNext_self (ws : List Widget) (i : Nat) (data : List Nat)
    (h : i < ws.length) :
    (setContentNext ws i data).getD i freshWidget = ws.getD i freshWidget := by
  unfold setContentNext
  rw [getD_modifyAt_ne _ _ _ _ (by omega), getD_ensureNext_lt _ _ _ _ h]

lemma length_setErrorNext (ws : List Widget) (i : Nat) (h : i < ws.length) :
    (setErrorNext ws i).length = i + 2 := by
  unfold setErrorNext
  rw [length_removeLoop _ _ (by rw [length_modifyAt]; exact length_afterEnsure ws i h),
    length_modifyAt]
  have := length_afterEnsure ws i h
  omega

lemma getD_setErrorNext_next (ws : List Widget) (i : Nat) (h : i < ws.length) :
    (setErrorNext ws i).getD (i + 1) freshWidget =
      { (ensureNext ws i).getD (i + 1) freshWidget with errB := true } := by
  unfold setErrorNext
  rw [getD_removeLoop _ _ _ _
    (by rw [length_modifyAt]; exact length_afterEnsure ws i h) (by omega)]
  exact getD_modifyAt_self _ _ _ (by have := length_afterEnsure ws i h; omega)

lemma getD_setErrorNext_self (ws : List Widget) (i : Nat) (h : i < ws.length) :
    (setErrorNext ws i).getD i freshWidget = ws.getD i freshWidget := by
  unfold setErrorNext
  rw [getD_removeLoop _ _ _ _
    (by rw [length_modifyAt]; exact length_afterEnsure ws i h) (by omega)]
  rw [getD_modifyAt_ne _ _ _ _ (by omega), getD_ensureNext_lt _ _ _ _ h]

/-! Shape lemmas for the tail of `action`. -/

lemma length_resetCombo (ws : List Widget) (i : Nat) :
    (resetCombo ws i).length = ws.length := by
  unfold resetCombo
  split
  · rw [length_modifyAt]
  · rfl

lemma getD_resetCombo_self (ws : List Widget) (i : Nat) (h : i < ws.length) :
    (resetCombo ws i).getD i freshWidget =
      if (ws.getD i freshWidget).currentComboHeader.isSome then
        { ws.getD i freshWidget with comboIdx := 0 }
      else ws.getD i freshWidget := by
  unfold resetCombo
  split
  · exact getD_modifyAt_self _ _ _ h
  · rfl

lemma getD_resetCombo_ne (ws : List Widget) (i k : Nat) (h : i ≠ k) (d : Widget) :
    (resetCombo ws i).getD k d = ws.getD k d := by
  unfold resetCombo
  split
  · exact getD_modifyAt_ne _ _ _ _ h _
  · rfl

lemma length_captionNext (ws : List Widget) (i : Nat) :
    (captionNext ws i).length = ws.length := by
  unfold captionNext
  split
  · rw [length_modifyAt]
  · rfl

lemma getD_captionNext_self (ws : List Widget) (i : Nat) (d : Widget) :
    (captionNext ws i).getD i d = ws.getD i d := by
  unfold captionNext
  split
  · exact getD_modifyAt_ne _ _ _ _ (by omega) _
  · rfl

lemma getD_captionNext_next (ws : List Widget) (i : Nat) (h : i + 1 < ws.length) :
    (captionNext ws i).getD (i + 1) freshWidget =
      if (ws.getD (i + 1) freshWidget).readOnly &&
          (ws.getD i freshWidget).currentPick.isSome then
        { ws.getD (i + 1) freshWidget with label :=
            (ws.getD i freshWidget).currentPick.map (fun p => "Transformer: " ++ p) }
      else ws.getD (i + 1) freshWidget := by
  unfold captionNext
  split
  · exact getD_modifyAt_self _ _ _ h
  · rfl

lemma length_actionFinish (ws : List Widget) (i : Nat) (e : Bool) :
    (actionFinish ws i e).length = (ensureNext (resetCombo ws i) i).length := by
  unfold actionFinish
  split
  · rw [length_modifyAt, length_captionNext]
  · rw [length_captionNext]

lemma length_actionFinish_of_next (ws : List Widget) (i : Nat) (e : Bool)
    (h : i + 1 < ws.length) :
    (actionFinish ws i e).length = ws.length := by
  rw [length_actionFinish, length_ensureNext, length_resetCombo, if_pos h]

lemma getD_actionFinish_self (ws : List Widget) (i : Nat) (e : Bool)
    (h : i < ws.length) :
    (actionFinish ws i e).getD i freshWidget =
      if (ws.getD i freshWidget).currentComboHeader.isSome then
        { ws.getD i freshWidget with comboIdx := 0 }
      else ws.getD i freshWidget := by
  unfold actionFinish
  have h1 : i < (resetCombo ws i).length := by rw [length_resetCombo]; exact h
  have step : (captionNext (ensureNext (resetCombo ws i) i) i).getD i freshWidget =
      (resetCombo ws i).getD i freshWidget := by
    rw [getD_captionNext_self, getD_ensureNext_lt _ _ _ _ h1]
  split
  · rw [getD_modifyAt_ne _ _ _ _ (by omega), step, getD_resetCombo_self _ _ h]
  · rw [step, getD_resetCombo_self _ _ h]

lemma currentPick_resetCombo (ws : List Widget) (i : Nat) (h : i < ws.length) :
    ((resetCombo ws i).getD i freshWidget).currentPick =
      (ws.getD i freshWidget).currentPick := by
  rw [getD_resetCombo_self _ _ h]
  split <;> rfl

lemma getD_actionFinish_true_next (ws2 : List Widget) (i : Nat)
    (h : i + 1 < ws2.length) :
    (actionFinish ws2 i true).getD (i + 1) freshWidget =
      if (ws2.getD (i + 1) freshWidget).readOnly &&
          (ws2.getD i freshWidget).currentPick.isSome then
        { ws2.getD (i + 1) freshWidget with label :=
            (ws2.getD i freshWidget).currentPick.map (fun p => "Transformer: " ++ p) }
      else ws2.getD (i + 1) freshWidget := by
  have h0 : i < ws2.length := by omega
  have hrl : i + 1 < (resetCombo ws2 i).length := by rw [length_resetCombo]; exact h
  have hen : (ensureNext (resetCombo ws2 i) i).getD (i + 1) freshWidget =
      ws2.getD (i + 1) freshWidget := by
    rw [getD_ensureNext_lt _ _ _ _ hrl, getD_resetCombo_ne _ _ _ (by omega)]
  have hpk : ((ensureNext (resetCombo ws2 i) i).getD i freshWidget).currentPick =
      (ws2.getD i freshWidget).currentPick := by
    rw [getD_ensureNext_lt _ _ _ _ (by omega), currentPick_resetCombo _ _ h0]
  show (captionNext (ensureNext (resetCombo ws2 i) i) i).getD (i + 1) freshWidget = _
  rw [getD_captionNext_next _ _
    (by rw [length_ensureNext, length_resetCombo]; split <;> omega)]
  rw [hen, hpk]

/-! Shape of the two-call failure sequence
`set_error_next(); set_content_next(D)` followed by the action tail. -/

lemma length_failSeq (ws : List Widget) (i : Nat) (D : List Nat)
    (h : i < ws.length) :
    (setContentNext (setErrorNext ws i) i D).length = i + 2 := by
  rw [length_setContentNext, length_setErrorNext _ _ h, if_pos (by omega)]

lemma getD_failSeq_next (ws : List Widget) (i : Nat) (D : List Nat)
    (h : i < ws.length) :
    (setContentNext (setErrorNext ws i) i D).getD (i + 1) freshWidget =
      contentSetter
        { (ensureNext ws i).getD (i + 1) freshWidget with errB := true } D := by
  rw [getD_setContentNext_next _ _ _ (by rw [length_setErrorNext _ _ h]; omega)]
  rw [getD_ensureNext_lt _ _ _ _ (by rw [length_setErrorNext _ _ h]; omega)]
  rw [getD_setErrorNext_next _ _ h]

lemma getD_failSeq_self (ws : List Widget) (i : Nat) (D : List Nat)
    (h : i < ws.length) :
    (setContentNext (setErrorNext ws i) i D).getD i freshWidget =
      ws.getD i freshWidget := by
  rw [getD_setContentNext_self _ _ _ (by rw [length_setErrorNext _ _ h]; omega),
    getD_setErrorNext_self _ _ h]

lemma length_finishFail (ws : List Widget) (i : Nat) (D : List Nat)
    (h : i < ws.length) :
    (actionFinish (setContentNext (setErrorNext ws i) i D) i true).length = i + 2 := by
  rw [length_actionFinish_of_next _ _ _ (by rw [length_failSeq _ _ _ h]; omega),
    length_failSeq _ _ _ h]

lemma errB_finishFail (ws : List Widget) (i : Nat) (D : List Nat)
    (h : i < ws.length) :
    ((actionFinish (setContentNext (setErrorNext ws i) i D) i true).getD (i + 1)
      freshWidget).errB = true := by
  rw [getD_actionFinish_true_next _ _ (by rw [length_failSeq _ _ _ h]; omega)]
  rw [getD_failSeq_next _ _ _ h]
  split
  · simp [contentSetter_errB]
  · simp [contentSetter_errB]

lemma length_recordCombo (ws : List Widget) (i : Nat) (c : ComboSel) :
    (recordCombo ws i c).length = ws.length := by
  unfold recordCombo
  rw [length_modifyAt]

lemma getD_recordCombo_self (ws : List Widget) (i : Nat) (c : ComboSel)
    (h : i < ws.length) :
    (recordCombo ws i c).getD i freshWidget =
      { ws.getD i freshWidget with
          currentComboHeader := some c.header,
          currentPick := some c.text, comboIdx := c.idx } := by
  unfold recordCombo
  exact getD_modifyAt_self _ _ _ h

/-- On a failing dispatch the whole of `action` is the two-call failure
sequence (`set_error_next` then `set_content_next` with the fail
payload) on the combo-recorded list, followed by the action tail with
`error` set. -/
lemma action_fail_eq (reg : Registry) (ws : List Widget) (i : Nat) (c : ComboSel)
    (h : i < ws.length) (hf : actionFailsAt reg ws i c) :
    action reg ws i (some c) =
      actionFinish
        (setContentNext (setErrorNext (recordCombo ws i c) i) i
          (failPayload reg ws i c)) i true := by
  obtain ⟨hidx, hcase⟩ := hf
  show (if c.idx = 0 then ws else actionCore reg (recordCombo ws i c) i) = _
  rw [if_neg hidx]
  unfold actionCore
  have hw : (recordCombo ws i c).getD i freshWidget =
      { ws.getD i freshWidget with
          currentComboHeader := some c.header,
          currentPick := some c.text, comboIdx := c.idx } :=
    getD_recordCombo_self ws i c h
  have hbr : actionBranch reg (recordCombo ws i c) i =
      (true, setContentNext (setErrorNext (recordCombo ws i c) i) i
        (failPayload reg ws i c)) := by
    unfold actionBranch
    rw [hw]
    dsimp only
    rcases hcase with ⟨henc, hhd, hiss⟩ | ⟨henc, hcmp, hhd, hiss⟩ |
      ⟨henc, hcmp, hhsh, hall, hmisc, hx, hcr, e, hxe⟩
    · rw [if_pos henc]
      rw [if_neg (by simp [hhd] : ¬(some c.header = some "Encode"))]
      unfold failPayload
      rw [if_pos henc]
      rcases hde : reg.decode c.text (ws.getD i freshWidget).content with ⟨d, er⟩
      rcases er with _ | e
      · rw [hde] at hiss
        simp at hiss
      · rfl
    · rw [if_neg henc, if_pos hcmp]
      rw [if_neg (by simp [hhd] : ¬(some c.header = some "Compress"))]
      unfold failPayload
      rw [if_neg henc, if_pos hcmp]
      rcases hde : reg.uncompress c.text (ws.getD i freshWidget).content with ⟨d, er⟩
      rcases er with _ | e
      · rw [hde] at hiss
        simp at hiss
      · rfl
    · rw [if_neg henc, if_neg hcmp]
      rw [if_neg (by simp [hhsh, hall] :
        ¬(decide (c.text ∈ reg.hashs) || c.text == "ALL") = true)]
      rw [if_pos hmisc]
      rw [if_pos (by simp [hx, hcr] :
        (c.text == "X509Certificate" && reg.cryptoAvailable) = true)]
      unfold failPayload
      rw [if_neg henc, if_neg hcmp]
      rw [hxe]
  rw [hbr]

lemma content_finishFail (ws : List Widget) (i : Nat) (D : List Nat)
    (h : i < ws.length) :
    ((actionFinish (setContentNext (setErrorNext ws i) i D) i true).getD (i + 1)
      freshWidget).content = D := by
  rw [getD_actionFinish_true_next _ _ (by rw [length_failSeq _ _ _ h]; omega)]
  rw [getD_failSeq_next _ _ _ h]
  split
  · simp [contentSetter_content]
  · simp [contentSetter_content]

lemma label_finishFail (ws : List Widget) (i : Nat) (D : List Nat) (p : String)
    (h : i < ws.length)
    (hro : i + 1 < ws.length → (ws.getD (i + 1) freshWidget).readOnly = true)
    (hpk : (ws.getD i freshWidget).currentPick = some p) :
    ((actionFinish (setContentNext (setErrorNext ws i) i D) i true).getD (i + 1)
      freshWidget).label = some ("Transformer: " ++ p) := by
  rw [getD_actionFinish_true_next _ _ (by rw [length_failSeq _ _ _ h]; omega)]
  rw [getD_failSeq_next _ _ _ h, getD_failSeq_self _ _ _ h]
  have hro2 : (contentSetter
      { (ensureNext ws i).getD (i + 1) freshWidget with errB := true } D).readOnly
      = true := by
    apply contentSetter_readOnly_true
    show ((ensureNext ws i).getD (i + 1) freshWidget).readOnly = true
    rw [getD_ensureNext_next]
    split
    · rename_i hlt
      exact hro hlt
    · rfl
  rw [if_pos (by rw [hro2, hpk]; rfl)]
  dsimp only
  rw [hpk]
  rfl

/-- The transformer dispatch produces one of exactly three list shapes:
the list unchanged, a plain `set_content_next`, or the failure sequence. -/
lemma actionBranch_cases (reg : Registry) (ws : List Widget) (i : Nat) :
    (actionBranch reg ws i).2 = ws ∨
    (∃ d, (actionBranch reg ws i).2 = setContentNext ws i d) ∨
    (∃ d, (actionBranch reg ws i).2 = setContentNext (setErrorNext ws i) i d) := by
  unfold actionBranch
  dsimp only
  cases hpick : (ws.getD i freshWidget).currentPick with
  | none => exact Or.inl rfl
  | some pick =>
    dsimp only
    by_cases h1 : pick ∈ reg.encodings
    · rw [if_pos h1]
      by_cases h2 : (ws.getD i freshWidget).currentComboHeader = some "Encode"
      · rw [if_pos h2]
        exact Or.inr (Or.inl ⟨_, rfl⟩)
      · rw [if_neg h2]
        rcases hde : reg.decode pick (ws.getD i freshWidget).content with ⟨d, er⟩
        rcases er with _ | e
        · exact Or.inr (Or.inl ⟨d, rfl⟩)
        · exact Or.inr (Or.inr ⟨d, rfl⟩)
    · rw [if_neg h1]
      by_cases h3 : pick ∈ reg.compressions
      · rw [if_pos h3]
        by_cases h4 : (ws.getD i freshWidget).currentComboHeader = some "Compress"
        · rw [if_pos h4]
          exact Or.inr (Or.inl ⟨_, rfl⟩)
        · rw [if_neg h4]
          rcases hde : reg.uncompress pick (ws.getD i freshWidget).content with ⟨d, er⟩
          rcases er with _ | e
          · exact Or.inr (Or.inl ⟨d, rfl⟩)
          · exact Or.inr (Or.inr ⟨d, rfl⟩)
      · rw [if_neg h3]
        by_cases h5 : (decide (pick ∈ reg.hashs) || pick == "ALL") = true
        · rw [if_pos h5]
          exact Or.inr (Or.inl ⟨_, rfl⟩)
        · rw [if_neg h5]
          by_cases h6 : pick ∈ reg.misc
          · rw [if_pos h6]
            by_cases h7 : (pick == "X509Certificate" && reg.cryptoAvailable) = true
            · rw [if_pos h7]
              rcases hde : reg.x509decode (ws.getD i freshWidget).content with e | d
              · exact Or.inr (Or.inr ⟨_, rfl⟩)
              · exact Or.inr (Or.inl ⟨d, rfl⟩)
            · rw [if_neg h7]
              exact Or.inl rfl
          · rw [if_neg h6]
            exact Or.inl rfl

/-- Every leaf of the transformer dispatch leaves the widget at position
`i` untouched and in range. -/
lemma actionBranch_getD_self (reg : Registry) (ws : List Widget) (i : Nat)
    (h : i < ws.length) :
    (actionBranch reg ws i).2.getD i freshWidget = ws.getD i freshWidget ∧
    i < (actionBranch reg ws i).2.length := by
  rcases actionBranch_cases reg ws i with hc | ⟨d, hc⟩ | ⟨d, hc⟩ <;> rw [hc]
  · exact ⟨rfl, h⟩
  · refine ⟨getD_setContentNext_self ws i d h, ?_⟩
    rw [length_setContentNext]
    split <;> omega
  · refine ⟨getD_failSeq_self ws i d h, ?_⟩
    rw [length_failSeq _ _ _ h]
    omega

/-- Every leaf of the transformer dispatch keeps the list length at most
`i + 2` when it started that way. -/
lemma actionBranch_length_le (reg : Registry) (ws : List Widget) (i : Nat)
    (h : i < ws.length) (h2 : ws.length ≤ i + 2) :
    (actionBranch reg ws i).2.length ≤ i + 2 := by
  rcases actionBranch_cases reg ws i with hc | ⟨d, hc⟩ | ⟨d, hc⟩ <;> rw [hc]
  · exact h2
  · rw [length_setContentNext]
    split <;> omega
  · rw [length_failSeq _ _ _ h]

lemma length_actionFinish_le (ws2 : List Widget) (i : Nat) (e : Bool)
    (h2 : ws2.length ≤ i + 2) :
    (actionFinish ws2 i e).length ≤ i + 2 := by
  rw [length_actionFinish, length_ensureNext, length_resetCombo]
  split <;> omega

/-- An `action` call on a chain already bounded by `i + 2` stages keeps
it bounded by `i + 2` stages. -/
lemma action_length_le (reg : Registry) (ws : List Widget) (i : Nat)
    (combo : Option ComboSel) (h : i < ws.length) (h2 : ws.length ≤ i + 2) :
    (action reg ws i combo).length ≤ i + 2 := by
  cases combo with
  | none =>
    show (actionCore reg ws i).length ≤ i + 2
    unfold actionCore
    exact length_actionFinish_le _ _ _ (actionBranch_length_le reg ws i h h2)
  | some c =>
    show (if c.idx = 0 then ws else actionCore reg (recordCombo ws i c) i).length ≤ i + 2
    split
    · exact h2
    · unfold actionCore
      exact length_actionFinish_le _ _ _
        (actionBranch_length_le reg _ i (by rw [length_recordCombo]; exact h)
          (by rw [length_recordCombo]; exact h2))

/-! Claim theorems. -/

/-- Claim C9: selecting the category placeholder entry (combo index 0) as
the operation is a no-op — `action` returns immediately and no stage's
content, error flag, or count of stages changes, since the whole widget
list is returned unchanged. -/
theorem placeholder_selection_noop (reg : Registry) (ws : List Widget) (i : Nat)
    (c : ComboSel) (h : c.idx = 0) :
    action reg ws i (some c) = ws := by
  show (if c.idx = 0 then ws else actionCore reg (recordCombo ws i c) i) = ws
  rw [if_pos h]

/-- Witness for C9 at a concrete chain and the `Encode` placeholder. -/
theorem placeholder_selection_noop_witness :
    (⟨"Encode", 0, "Encode"⟩ : ComboSel).idx = 0 ∧
    action sampleReg chainHi 0 (some ⟨"Encode", 0, "Encode"⟩) = chainHi :=
  ⟨rfl, placeholder_selection_noop sampleReg chainHi 0 ⟨"Encode", 0, "Encode"⟩ rfl⟩

/-- Claim C10: `previous()` always returns the widget itself, for root and
non-root widgets alike, because its guard compares the boolean result of
`has_previous()` with the widget object and therefore always takes the
self-returning branch. -/
theorem previousIdx_returns_self (ws : List Widget) (i : Nat) :
    previousIdx ws i = i := rfl

/-- Claim C3 counterexample: writing the non-printable byte 0 into the
root through the `set_root_content` entry point leaves the root stage
non-editable — the content property setter marks the text field
read-only — refuting that `stages[0].editable == true` holds at every
point outside a promote call regardless of content. -/
theorem root_editable_counterexample :
    editable ((setRootContent initialChain [0]).getD 0 freshWidget) = false := by
  decide

/-- Claim C3 amended: the root stage stays editable under
`set_root_content` as long as the written content is printable (the
read-only marking fires exactly on non-printable bytes in text view). -/
theorem root_editable_printable (ws : List Widget) (data : List Nat)
    (h1 : (ws.getD 0 freshWidget).readOnly = false)
    (h2 : allPrintable data = true) :
    editable ((setRootContent ws data).getD 0 freshWidget) = true := by
  have h1' : (ws[0]?.getD freshWidget).readOnly = false := by
    rw [← List.getD_eq_getElem?_getD]
    exact h1
  unfold setRootContent
  split
  · simp [editable, h1']
  · by_cases hlen : 0 < ws.length
    · rw [getD_modifyAt_self _ _ _ hlen]
      unfold editable contentSetter
      split
      · simp [h1']
      · simp [h1', h2]
    · have hnil : ws = [] := List.eq_nil_of_length_eq_zero (by omega)
      rw [hnil] at h1
      exact absurd h1 (by decide)

/-- Witness for C3 amended: printable content keeps the root editable. -/
theorem root_editable_printable_witness :
    (initialChain.getD 0 freshWidget).readOnly = false ∧
    allPrintable [104, 105] = true ∧
    editable ((setRootContent initialChain [104, 105]).getD 0 freshWidget) = true :=
  ⟨by decide, by decide,
    root_editable_printable initialChain [104, 105] (by decide) (by decide)⟩

/-- Claim C8: `clear_content` on a non-root stage calls
`remove_next_widgets(widget, offset=0)`, whose pop loop removes the stage
itself as well as its followers: on a three-stage chain, clearing stage 1
leaves only the root (length 1), while the claim — and the method's own
docstring, "remove all widgets that follow widget" — require stage 1 to
survive (length 2). -/
theorem clear_nonroot_removes_stage_itself :
    sampleChain3.length = 3 ∧ (clearContent sampleChain3 1).length = 1 := by
  decide

/-- Claim C6: whenever the dispatched operation fails at stage `i`, the
resulting chain has exactly `i + 2` stages (so nothing exists beyond
stage `i + 1`) and the stage at `i + 1` carries the error marker. -/
theorem error_containment (reg : Registry) (ws : List Widget) (i : Nat)
    (c : ComboSel) (h : i < ws.length) (hf : actionFailsAt reg ws i c) :
    (action reg ws i (some c)).length = i + 2 ∧
    ((action reg ws i (some c)).getD (i + 1) freshWidget).errB = true := by
  rw [action_fail_eq reg ws i c h hf]
  have h' : i < (recordCombo ws i c).length := by
    rw [length_recordCombo]
    exact h
  exact ⟨length_finishFail _ _ _ h', errB_finishFail _ _ _ h'⟩

/-- Witness for C6: a base64-style decode failure (input containing `!`)
on the root of a live chain. -/
theorem error_containment_witness :
    0 < (setRootContent initialChain [33, 33]).length ∧
    actionFailsAt sampleReg (setRootContent initialChain [33, 33]) 0
      ⟨"Decode", 1, "Base64"⟩ ∧
    ((action sampleReg (setRootContent initialChain [33, 33]) 0
        (some ⟨"Decode", 1, "Base64"⟩)).length = 0 + 2 ∧
      ((action sampleReg (setRootContent initialChain [33, 33]) 0
        (some ⟨"Decode", 1, "Base64"⟩)).getD (0 + 1) freshWidget).errB = true) := by
  have hf : actionFailsAt sampleReg (setRootContent initialChain [33, 33]) 0
      ⟨"Decode", 1, "Base64"⟩ :=
    ⟨by decide, Or.inl ⟨by decide, by decide, by decide⟩⟩
  exact ⟨by decide, hf,
    error_containment sampleReg (setRootContent initialChain [33, 33]) 0
      ⟨"Decode", 1, "Base64"⟩ (by decide) hf⟩

/-- Claim C1 counterexample: a failing `X509Certificate` parse on root
content `"hi"` completes with the error flag set on stage 1, but stage
1's content is the original input bytes, not empty —
`set_content_next(self._content)` in the except-branch — refuting the
"empty content" part of the claim. -/
theorem failure_stage_content_counterexample :
    ((action sampleReg chainHi 0
        (some ⟨"Miscellaneous", 1, "X509Certificate"⟩)).getD 1 freshWidget).errB
      = true ∧
    ((action sampleReg chainHi 0
        (some ⟨"Miscellaneous", 1, "X509Certificate"⟩)).getD 1 freshWidget).content
      ≠ [] := by
  decide

/-- Claim C1 amended: on any fallible-path failure the chain mutation
completes with exactly `i + 2` stages; stage `i + 1` has `error = true`
and is captioned with the failed operation's name, and its content is
the byte payload the failed transformer returned — the decode or
uncompress result's first component, or, on the `X509Certificate`
except-branch, the input content itself — not necessarily empty. -/
theorem failure_stage_amended (reg : Registry) (ws : List Widget) (i : Nat)
    (c : ComboSel) (h : i < ws.length)
    (hro : i + 1 < ws.length → (ws.getD (i + 1) freshWidget).readOnly = true)
    (hf : actionFailsAt reg ws i c) :
    (action reg ws i (some c)).length = i + 2 ∧
    ((action reg ws i (some c)).getD (i + 1) freshWidget).errB = true ∧
    ((action reg ws i (some c)).getD (i + 1) freshWidget).content =
      failPayload reg ws i c ∧
    ((action reg ws i (some c)).getD (i + 1) freshWidget).label =
      some ("Transformer: " ++ c.text) := by
  rw [action_fail_eq reg ws i c h hf]
  have h' : i < (recordCombo ws i c).length := by
    rw [length_recordCombo]
    exact h
  refine ⟨length_finishFail _ _ _ h', errB_finishFail _ _ _ h',
    content_finishFail _ _ _ h', ?_⟩
  apply label_finishFail _ _ _ _ h'
  · intro hlt
    unfold recordCombo
    rw [getD_modifyAt_ne _ _ _ _ (by omega)]
    rw [length_recordCombo] at hlt
    exact hro hlt
  · rw [getD_recordCombo_self _ _ _ h]

/-- Witness for C1 amended at the concrete failing certificate parse. -/
theorem failure_stage_amended_witness :
    actionFailsAt sampleReg chainHi 0 ⟨"Miscellaneous", 1, "X509Certificate"⟩ ∧
    ((action sampleReg chainHi 0
        (some ⟨"Miscellaneous", 1, "X509Certificate"⟩)).length = 0 + 2 ∧
      ((action sampleReg chainHi 0
          (some ⟨"Miscellaneous", 1, "X509Certificate"⟩)).getD (0 + 1)
          freshWidget).errB = true ∧
      ((action sampleReg chainHi 0
          (some ⟨"Miscellaneous", 1, "X509Certificate"⟩)).getD (0 + 1)
          freshWidget).content =
        failPayload sampleReg chainHi 0 ⟨"Miscellaneous", 1, "X509Certificate"⟩ ∧
      ((action sampleReg chainHi 0
          (some ⟨"Miscellaneous", 1, "X509Certificate"⟩)).getD (0 + 1)
          freshWidget).label = some ("Transformer: " ++ "X509Certificate")) := by
  have hf : actionFailsAt sampleReg chainHi 0 ⟨"Miscellaneous", 1, "X509Certificate"⟩ :=
    ⟨by decide, Or.inr (Or.inr ⟨by decide, by decide, by decide, by decide,
      by decide, rfl, rfl, "could not load certificate", rfl⟩)⟩
  exact ⟨hf, failure_stage_amended sampleReg chainHi 0
    ⟨"Miscellaneous", 1, "X509Certificate"⟩ (by decide)
    (fun hl => absurd hl (by decide)) hf⟩

/-- With the crypto dependency unavailable (or any miscellaneous pick
that matches no transformer guard), the dispatch mutates nothing and
reports no error, so `action` is just the combo recording followed by the
no-error tail. -/
lemma action_skip_eq (reg : Registry) (ws : List Widget) (i : Nat) (c : ComboSel)
    (h : i < ws.length) (hidx : c.idx ≠ 0)
    (henc : c.text ∉ reg.encodings) (hcmp : c.text ∉ reg.compressions)
    (hhsh : c.text ∉ reg.hashs) (hall : c.text ≠ "ALL") (hmisc : c.text ∈ reg.misc)
    (hcr : reg.cryptoAvailable = false) :
    action reg ws i (some c) = actionFinish (recordCombo ws i c) i false := by
  show (if c.idx = 0 then ws else actionCore reg (recordCombo ws i c) i) = _
  rw [if_neg hidx]
  unfold actionCore
  have hbr : actionBranch reg (recordCombo ws i c) i = (false, recordCombo ws i c) := by
    unfold actionBranch
    rw [getD_recordCombo_self _ _ _ h]
    dsimp only
    rw [if_neg henc, if_neg hcmp]
    rw [if_neg (by simp [hhsh, hall] :
      ¬(decide (c.text ∈ reg.hashs) || c.text == "ALL") = true)]
    rw [if_pos hmisc]
    rw [if_neg (by simp [hcr] :
      ¬(c.text == "X509Certificate" && reg.cryptoAvailable) = true)]
  rw [hbr]

/-- The no-error tail on a chain whose stage `i` is last: a fresh
read-only next stage is appended, captioned, and its (already clear)
error border cleared. -/
lemma actionFinish_false_last (ws2 : List Widget) (i : Nat) (p : String)
    (hlast : ws2.length = i + 1)
    (hpk : (ws2.getD i freshWidget).currentPick = some p) :
    (actionFinish ws2 i false).length = i + 2 ∧
    (actionFinish ws2 i false).getD (i + 1) freshWidget =
      { freshWidget with label := some ("Transformer: " ++ p) } := by
  have hi : i < ws2.length := by omega
  have hL3 : (resetCombo ws2 i).length = i + 1 := by rw [length_resetCombo, hlast]
  have hL4 : (ensureNext (resetCombo ws2 i) i).length = i + 2 := by
    rw [length_ensureNext, hL3, if_neg (by omega)]
  have hg4next : (ensureNext (resetCombo ws2 i) i).getD (i + 1) freshWidget =
      freshWidget := by
    rw [getD_ensureNext_next, hL3, if_neg (by omega)]
  have hpick4 : ((ensureNext (resetCombo ws2 i) i).getD i freshWidget).currentPick =
      some p := by
    rw [getD_ensureNext_lt _ _ _ _ (by omega), currentPick_resetCombo _ _ hi]
    exact hpk
  have hcap : (captionNext (ensureNext (resetCombo ws2 i) i) i).getD (i + 1)
      freshWidget = { freshWidget with label := some ("Transformer: " ++ p) } := by
    rw [getD_captionNext_next _ _ (by rw [hL4]; omega)]
    rw [hg4next, hpick4]
    rw [if_pos (show (freshWidget.readOnly && (some p).isSome) = true from rfl)]
    rfl
  have hLc : (captionNext (ensureNext (resetCombo ws2 i) i) i).length = i + 2 := by
    rw [length_captionNext, hL4]
  constructor
  · show (modifyAt (captionNext (ensureNext (resetCombo ws2 i) i) i) (i + 1)
      (fun v => { v with errB := false })).length = i + 2
    rw [length_modifyAt, hLc]
  · show (modifyAt (captionNext (ensureNext (resetCombo ws2 i) i) i) (i + 1)
      (fun v => { v with errB := false })).getD (i + 1) freshWidget = _
    rw [getD_modifyAt_self _ _ _ (by rw [hLc]; omega), hcap]
    rfl

/-- Claim C2 counterexample: with the `OpenSSL.crypto` dependency
missing, dispatching `X509Certificate` does not surface `error = true`
on the target stage — the guard `and crypto` silently skips the
transformer: a next stage exists but carries no error marker and empty
content. -/
theorem unavailable_crypto_counterexample :
    (action sampleRegNoCrypto chainHi 0
        (some ⟨"Miscellaneous", 1, "X509Certificate"⟩)).length = 2 ∧
    ((action sampleRegNoCrypto chainHi 0
        (some ⟨"Miscellaneous", 1, "X509Certificate"⟩)).getD 1 freshWidget).errB
      = false := by
  decide

/-- Claim C2 amended: with the crypto capability absent, dispatching
`X509Certificate` on the last stage is silently skipped rather than
surfacing an error: a fresh empty next stage is appended with
`error = false`, captioned with the transformer name. -/
theorem unavailable_crypto_skips (reg : Registry) (ws : List Widget) (i : Nat)
    (c : ComboSel) (hlast : ws.length = i + 1) (hidx : c.idx ≠ 0)
    (henc : c.text ∉ reg.encodings) (hcmp : c.text ∉ reg.compressions)
    (hhsh : c.text ∉ reg.hashs) (hall : c.text ≠ "ALL") (hmisc : c.text ∈ reg.misc)
    (hcr : reg.cryptoAvailable = false) :
    (action reg ws i (some c)).length = i + 2 ∧
    ((action reg ws i (some c)).getD (i + 1) freshWidget).errB = false ∧
    ((action reg ws i (some c)).getD (i + 1) freshWidget).content = [] ∧
    ((action reg ws i (some c)).getD (i + 1) freshWidget).label =
      some ("Transformer: " ++ c.text) := by
  have hi : i < ws.length := by omega
  rw [action_skip_eq reg ws i c hi hidx henc hcmp hhsh hall hmisc hcr]
  have hlast' : (recordCombo ws i c).length = i + 1 := by
    rw [length_recordCombo, hlast]
  have hpk : ((recordCombo ws i c).getD i freshWidget).currentPick = some c.text := by
    rw [getD_recordCombo_self _ _ _ hi]
  obtain ⟨hlen, hval⟩ := actionFinish_false_last (recordCombo ws i c) i c.text hlast' hpk
  rw [hlen, hval]
  exact ⟨rfl, rfl, rfl, rfl⟩

/-- Witness for C2 amended at the concrete crypto-missing registry. -/
theorem unavailable_crypto_skips_witness :
    chainHi.length = 0 + 1 ∧ sampleRegNoCrypto.cryptoAvailable = false ∧
    ((action sampleRegNoCrypto chainHi 0
        (some ⟨"Miscellaneous", 1, "X509Certificate"⟩)).length = 0 + 2 ∧
      ((action sampleRegNoCrypto chainHi 0
          (some ⟨"Miscellaneous", 1, "X509Certificate"⟩)).getD (0 + 1)
          freshWidget).errB = false ∧
      ((action sampleRegNoCrypto chainHi 0
          (some ⟨"Miscellaneous", 1, "X509Certificate"⟩)).getD (0 + 1)
          freshWidget).content = [] ∧
      ((action sampleRegNoCrypto chainHi 0
          (some ⟨"Miscellaneous", 1, "X509Certificate"⟩)).getD (0 + 1)
          freshWidget).label = some ("Transformer: " ++ "X509Certificate")) :=
  ⟨by decide, by decide,
    unavailable_crypto_skips sampleRegNoCrypto chainHi 0
      ⟨"Miscellaneous", 1, "X509Certificate"⟩ (by decide) (by decide) (by decide)
      (by decide) (by decide) (by decide) (by decide) (by decide)⟩

/-- Claim C4 counterexample: after a successful Base64-encode dispatch
the `current_pick` memory still holds the operation (only the combo's
index is reset), and a subsequent focused edit of the root re-applies
the encoding, changing stage 1 — the selected-operation memory is not
reset to the placeholder and the edit does silently re-apply it. -/
theorem selection_memory_counterexample :
    ((action sampleReg chainHi 0 (some ⟨"Encode", 1, "Base64"⟩)).getD 0
        freshWidget).currentPick = some "Base64" ∧
    ((fieldContentChanged sampleReg
        (action sampleReg chainHi 0 (some ⟨"Encode", 1, "Base64"⟩)) 0 [120]
        true).getD 1 freshWidget).content ≠
      ((action sampleReg chainHi 0 (some ⟨"Encode", 1, "Base64"⟩)).getD 1
        freshWidget).content := by
  decide

/-- Claim C4 amended: after every dispatch with a combo selection the
combo's current index is reset to 0 (the placeholder), but the
`current_pick` memory keeps the selected operation, which is what the
focused-edit path of `field_content_changed` re-applies. -/
theorem combo_reset_amended (reg : Registry) (ws : List Widget) (i : Nat)
    (c : ComboSel) (h : i < ws.length) (hidx : c.idx ≠ 0) :
    ((action reg ws i (some c)).getD i freshWidget).comboIdx = 0 ∧
    ((action reg ws i (some c)).getD i freshWidget).currentPick = some c.text := by
  have heq : action reg ws i (some c) = actionCore reg (recordCombo ws i c) i := by
    show (if c.idx = 0 then ws else actionCore reg (recordCombo ws i c) i) = _
    rw [if_neg hidx]
  rw [heq]
  unfold actionCore
  dsimp only
  obtain ⟨hself, hlen⟩ := actionBranch_getD_self reg (recordCombo ws i c) i
    (by rw [length_recordCombo]; exact h)
  rw [getD_actionFinish_self _ _ _ hlen, hself, getD_recordCombo_self _ _ _ h]
  split
  · exact ⟨rfl, rfl⟩
  · rename_i hcond
    exact absurd rfl hcond

/-- Witness for C4 amended at a concrete encode dispatch. -/
theorem combo_reset_amended_witness :
    0 < chainHi.length ∧ (⟨"Encode", 1, "Base64"⟩ : ComboSel).idx ≠ 0 ∧
    (((action sampleReg chainHi 0 (some ⟨"Encode", 1, "Base64"⟩)).getD 0
        freshWidget).comboIdx = 0 ∧
      ((action sampleReg chainHi 0 (some ⟨"Encode", 1, "Base64"⟩)).getD 0
        freshWidget).currentPick = some "Base64") :=
  ⟨by decide, by decide,
    combo_reset_amended sampleReg chainHi 0 ⟨"Encode", 1, "Base64"⟩ (by decide)
      (by decide)⟩

/-- Claim C5: editing an editable stage `i` (the `textChanged` handler
with a writable text field) truncates the chain to at most `i + 2`
stages; this bound survives the handler's optional live re-application
of the pending operation. -/
theorem edit_truncation_law (reg : Registry) (ws : List Widget) (i : Nat)
    (newText : List Nat) (focus : Bool) (h : i < ws.length)
    (he : (ws.getD i freshWidget).readOnly = false) :
    (fieldContentChanged reg ws i newText focus).length ≤ i + 2 := by
  unfold fieldContentChanged
  dsimp only
  rw [he]
  simp only [Bool.not_false, Bool.and_true, Bool.and_false, Bool.false_eq_true,
    if_false, if_true]
  split
  · rename_i hn
    have hn' : i + 1 < ws.length := by simpa [hasNext] using hn
    have hL : (removeNextWidgets ws i 2).length = i + 2 := by
      unfold removeNextWidgets
      rw [length_removeLoop _ _ (by omega)]
      omega
    split
    · apply action_length_le
      · rw [length_modifyAt, hL]
        omega
      · rw [length_modifyAt, hL]
    · rw [length_modifyAt, hL]
  · rename_i hn
    have hn' : ¬(i + 1 < ws.length) := by simpa [hasNext] using hn
    split
    · apply action_length_le
      · rw [length_modifyAt]
        exact h
      · rw [length_modifyAt]
        omega
    · rw [length_modifyAt]
      omega

/-- Witness for C5: editing the root of the three-stage chain keeps at
most two stages. -/
theorem edit_truncation_law_witness :
    0 < sampleChain3.length ∧
    (sampleChain3.getD 0 freshWidget).readOnly = false ∧
    (fieldContentChanged sampleReg sampleChain3 0 [120] false).length ≤ 0 + 2 :=
  ⟨by decide, by decide,
    edit_truncation_law sampleReg sampleChain3 0 [120] false (by decide) (by decide)⟩

/-- Claim C7 counterexample: promoting a derived stage whose content is
non-printable (here the stand-in decode of `"hi"`, bytes `[0, 1]`)
yields the expected single-stage chain with the promoted content, but
the root ends read-only — `editable = true` fails. -/
theorem promotion_editable_counterexample :
    (moveContentToRoot (action sampleReg chainHi 0 (some ⟨"Decode", 1, "Base64"⟩))
        1).length = 1 ∧
    ((moveContentToRoot (action sampleReg chainHi 0 (some ⟨"Decode", 1, "Base64"⟩))
        1).getD 0 freshWidget).content =
      ((action sampleReg chainHi 0 (some ⟨"Decode", 1, "Base64"⟩)).getD 1
        freshWidget).content ∧
    editable ((moveContentToRoot
        (action sampleReg chainHi 0 (some ⟨"Decode", 1, "Base64"⟩)) 1).getD 0
        freshWidget) = false := by
  decide

/-- Claim C7 amended: `promote(k)` for `k > 0` always yields a
single-stage chain whose root content is the pre-promote content of
stage `k`, with the pending pick cleared and the root's caption
untouched; the root text field ends read-only exactly when the promoted
content contains a non-printable byte (in text view), so `editable`
holds only for printable content. -/
theorem promotion_law_amended (ws : List Widget) (k : Nat) (hk0 : 0 < k)
    (hk : k < ws.length) (hx : (ws.getD 0 freshWidget).hexView = false) :
    (moveContentToRoot ws k).length = 1 ∧
    ((moveContentToRoot ws k).getD 0 freshWidget).content =
      (ws.getD k freshWidget).content ∧
    ((moveContentToRoot ws k).getD 0 freshWidget).currentPick = none ∧
    ((moveContentToRoot ws k).getD 0 freshWidget).label =
      (ws.getD 0 freshWidget).label ∧
    ((moveContentToRoot ws k).getD 0 freshWidget).readOnly =
      !allPrintable (ws.getD k freshWidget).content := by
  have hlen : 0 < ws.length := by omega
  unfold moveContentToRoot clearContent
  dsimp only
  rw [if_pos rfl]
  unfold removeNextWidgets
  have hL1 : (modifyAt ws 0 (fun w =>
      { w with content := [], readOnly := false, currentPick := none })).length
      = ws.length := length_modifyAt _ _ _
  have hrl : (removeLoop (modifyAt ws 0 (fun w =>
      { w with content := [], readOnly := false, currentPick := none }))
      (0 + 0)).length = 1 := by
    rw [length_removeLoop _ _ (by omega), hL1]
    omega
  have hg : (removeLoop (modifyAt ws 0 (fun w =>
      { w with content := [], readOnly := false, currentPick := none }))
      (0 + 0)).getD 0 freshWidget =
      { ws.getD 0 freshWidget with
          content := [], readOnly := false, currentPick := none } := by
    rw [getD_removeLoop _ _ _ _ (by omega) (by omega)]
    exact getD_modifyAt_self _ _ _ hlen
  refine ⟨?_, ?_⟩
  · rw [length_modifyAt, hrl]
  · rw [getD_modifyAt_self _ _ _ (by rw [hrl]; omega), hg]
    unfold contentSetter
    have hx' : (ws[0]?.getD freshWidget).hexView = false := by
      rw [← List.getD_eq_getElem?_getD]
      exact hx
    rw [if_neg (by simp [hx'])]
    refine ⟨rfl, rfl, rfl, ?_⟩
    simp

/-- Witness for C7 amended: promoting the printable encoded stage of a
two-stage chain leaves the root editable. -/
theorem promotion_law_amended_witness :
    0 < 1 ∧ 1 < (action sampleReg chainHi 0 (some ⟨"Encode", 1, "Base64"⟩)).length ∧
    (((action sampleReg chainHi 0 (some ⟨"Encode", 1, "Base64"⟩)).getD 0
        freshWidget).hexView = false) ∧
    ((moveContentToRoot (action sampleReg chainHi 0 (some ⟨"Encode", 1, "Base64"⟩))
        1).length = 1 ∧
      ((moveContentToRoot (action sampleReg chainHi 0
          (some ⟨"Encode", 1, "Base64"⟩)) 1).getD 0 freshWidget).content =
        ((action sampleReg chainHi 0 (some ⟨"Encode", 1, "Base64"⟩)).getD 1
          freshWidget).content ∧
      ((moveContentToRoot (action sampleReg chainHi 0
          (some ⟨"Encode", 1, "Base64"⟩)) 1).getD 0 freshWidget).currentPick
        = none ∧
      ((moveContentToRoot (action sampleReg chainHi 0
          (some ⟨"Encode", 1, "Base64"⟩)) 1).getD 0 freshWidget).label =
        ((action sampleReg chainHi 0 (some ⟨"Encode", 1, "Base64"⟩)).getD 0
          freshWidget).label ∧
      ((moveContentToRoot (action sampleReg chainHi 0
          (some ⟨"Encode", 1, "Base64"⟩)) 1).getD 0 freshWidget).readOnly =
        !allPrintable ((action sampleReg chainHi 0
          (some ⟨"Encode", 1, "Base64"⟩)).getD 1 freshWidget).content) :=
  ⟨by decide, by decide, by decide,
    promotion_law_amended (action sampleReg chainHi 0 (some ⟨"Encode", 1, "Base64"⟩))
      1 (by decide) (by decide) (by decide)⟩

end Deen
